import Mathlib

/-!
Verification of the `JoinError` failure taxonomy and retry/recovery policy
of the voice-channel join/leave layer (`src/error.rs`).

External error types (the driver connection error and the three backend
send-error types) are consumed by the core only through their display text
and their own optional causal source, so they are embedded as records
carrying exactly those observables. The `source` accessor of `JoinError`
is likewise embedded observationally: it returns the display text of the
causal error when one is present.
-/

/-- Opaque error of the media driver connect attempt
(`crate::driver::connection::error::Error`, re-exported as `ConnectionError`).
Observed only through its display text. -/
structure ConnectionError where
  msg : String
deriving DecidableEq

/-- Display text of a `ConnectionError` (its `fmt::Display` output). -/
def ConnectionError.display (e : ConnectionError) : String := e.msg

/-- Serenity backend send error
(`futures::channel::mpsc::TrySendError<InterMessage>`): observed through its
display text and its own causal source (`Error::source`), the latter recorded
as the display text of that source when present. -/
structure TrySendError where
  msg : String
  src : Option String
deriving DecidableEq

/-- Display text of a serenity `TrySendError`. -/
def TrySendError.display (e : TrySendError) : String := e.msg

/-- Twilight single-shard backend send error
(`twilight_gateway::shard::CommandError`), observed like `TrySendError`. -/
structure CommandError where
  msg : String
  src : Option String
deriving DecidableEq

/-- Display text of a twilight `CommandError`. -/
def CommandError.display (e : CommandError) : String := e.msg

/-- Twilight cluster backend send error
(`twilight_gateway::cluster::ClusterCommandError`), observed like
`TrySendError`. -/
structure ClusterCommandError where
  msg : String
  src : Option String
deriving DecidableEq

/-- Display text of a twilight `ClusterCommandError`. -/
def ClusterCommandError.display (e : ClusterCommandError) : String := e.msg

/-- Error returned when a manager or call handler is unable to send messages
over the gateway (`JoinError` in `src/error.rs`), one constructor per source
case, in source order, wrapping the same payloads. -/
inductive JoinError where
  | Dropped
  | NoSender
  | NoCall
  | TimedOut
  | IllegalGuild
  | IllegalChannel
  | Driver (e : ConnectionError)
  | Serenity (e : TrySendError)
  | TwilightCluster (e : ClusterCommandError)
  | TwilightShard (e : CommandError)
deriving DecidableEq

/-- `JoinError::should_leave_server`: `matches!(self, JoinError::TimedOut)`. -/
def JoinError.should_leave_server : JoinError → Bool
  | .TimedOut => true
  | _ => false

/-- `JoinError::should_reconnect_driver`:
`matches!(self, JoinError::Driver(_))`. -/
def JoinError.should_reconnect_driver : JoinError → Bool
  | .Driver _ => true
  | _ => false

/-- `impl fmt::Display for JoinError`: writes the uniform text
"failed to join voice channel: " first, then the case-specific message; the
backend cases delegate to the wrapped value via `e.fmt(f)`. -/
def JoinError.display (e : JoinError) : String :=
  "failed to join voice channel: " ++
    match e with
    | .Dropped => "request was cancelled/dropped"
    | .NoSender => "no gateway destination"
    | .NoCall => "tried to leave a non-existent call"
    | .TimedOut => "gateway response from Discord timed out"
    | .IllegalGuild => "target guild ID was zero"
    | .IllegalChannel => "target channel ID was zero"
    | .Driver _ => "establishing connection failed"
    | .Serenity e => e.display
    | .TwilightCluster e => e.display
    | .TwilightShard e => e.display

/-- `impl Error for JoinError`, the `source` accessor, observationally: the
display text of the returned causal error, or `none`. `Driver(e)` returns
`Some(e)`; the backend cases return `e.source()`, the wrapped error own
source, not the wrapped error itself. -/
def JoinError.source : JoinError → Option String
  | .Dropped => none
  | .NoSender => none
  | .NoCall => none
  | .TimedOut => none
  | .IllegalGuild => none
  | .IllegalChannel => none
  | .Driver e => some e.display
  | .Serenity e => e.src
  | .TwilightCluster e => e.src
  | .TwilightShard e => e.src

/-- `impl From<TrySendError<InterMessage>> for JoinError`. -/
def JoinError.fromTrySendError (e : TrySendError) : JoinError :=
  JoinError.Serenity e

/-- `impl From<CommandError> for JoinError`. -/
def JoinError.fromCommandError (e : CommandError) : JoinError :=
  JoinError.TwilightShard e

/-- `impl From<ClusterCommandError> for JoinError`. -/
def JoinError.fromClusterCommandError (e : ClusterCommandError) : JoinError :=
  JoinError.TwilightCluster e

/-- `impl From<ConnectionError> for JoinError`. -/
def JoinError.fromConnectionError (e : ConnectionError) : JoinError :=
  JoinError.Driver e

/-- Decides whether the first character list starts the second. -/
def begins : List Char → List Char → Bool
  | [], _ => true
  | _ :: _, [] => false
  | a :: as, b :: bs => a == b && begins as bs

/-- Decides whether the first character list occurs contiguously anywhere
inside the second. -/
def occurs (needle : List Char) : List Char → Bool
  | [] => begins needle []
  | b :: bs => begins needle (b :: bs) || occurs needle bs

/-- Outcome of a join or leave attempt together with the record of whether
the gateway transport was invoked (`none` result means success). -/
structure JoinOutcome where
  result : Option JoinError
  transportInvoked : Bool
deriving DecidableEq

/-- Modelled from the spec: the join operation itself is not under `src/`
(only its error type is). Per the spec, input validation rejects zero-value
guild and channel identifiers before any transport interaction, returning
`IllegalGuild` and `IllegalChannel` synchronously; the guild identifier is
validated first. Otherwise the voice-state command is sent over the given
transport. -/
def joinVoiceChannel (guild channel : Nat)
    (transport : Nat → Nat → Option JoinError) : JoinOutcome :=
  if guild = 0 then ⟨some JoinError.IllegalGuild, false⟩
  else if channel = 0 then ⟨some JoinError.IllegalChannel, false⟩
  else ⟨transport guild channel, true⟩

/-- Modelled from the spec: the leave operation is not under `src/`. A
zero-value guild identifier is rejected with `IllegalGuild` before any
transport interaction. -/
def leaveVoiceChannel (guild : Nat)
    (transport : Nat → Option JoinError) : JoinOutcome :=
  if guild = 0 then ⟨some JoinError.IllegalGuild, false⟩
  else ⟨transport guild, true⟩

/-- Claim C1: `should_leave_server e` is true if and only if `e` is the
`TimedOut` case; it is false for every other case, including `Dropped`,
`NoSender`, `NoCall`, `IllegalGuild`, `IllegalChannel`, `Driver(_)` and each
backend wrapper. -/
theorem should_leave_server_iff_timedOut (e : JoinError) :
    e.should_leave_server = true ↔ e = JoinError.TimedOut := by
  cases e <;> simp [JoinError.should_leave_server]

/-- Claim C2: `should_reconnect_driver e` is true if and only if `e` is the
`Driver(_)` case for some wrapped connection error; false for every other
case. -/
theorem should_reconnect_driver_iff_driver (e : JoinError) :
    e.should_reconnect_driver = true ↔ ∃ c, e = JoinError.Driver c := by
  cases e <;> simp [JoinError.should_reconnect_driver]

/-- Claim C3 counterexample: converting the serenity send error with display
text "serenity send failed" and no inner cause into a `JoinError` and then
reading `source()` yields `none`, not the wrapped error (observed by its
display text): the backend arms of `source` delegate to the wrapped error own
`source()` rather than returning the wrapped error itself. -/
theorem source_roundtrip_cex :
    (JoinError.fromTrySendError ⟨"serenity send failed", none⟩).source = none ∧
    (JoinError.fromTrySendError ⟨"serenity send failed", none⟩).source ≠
      some (TrySendError.display ⟨"serenity send failed", none⟩) := by
  exact ⟨rfl, by decide⟩

/-- Claim C3 amended: converting a driver `ConnectionError` into `JoinError`
and reading `source()` returns the wrapped error itself (observed by display
text); for each backend case (`Serenity`, `TwilightShard`,
`TwilightCluster`), `source()` instead delegates to the wrapped error own
causal source, returning that source when present and nothing otherwise. -/
theorem source_after_conversion (c : ConnectionError) (s : TrySendError)
    (sh : CommandError) (cl : ClusterCommandError) :
    (JoinError.fromConnectionError c).source = some c.display ∧
    (JoinError.fromTrySendError s).source = s.src ∧
    (JoinError.fromCommandError sh).source = sh.src ∧
    (JoinError.fromClusterCommandError cl).source = cl.src :=
  ⟨rfl, rfl, rfl, rfl⟩

/-- Claim C4 counterexample: the `Driver` case does not delegate its message
to the wrapped value: wrapping the connection error whose display text is
"socket handshake exploded" renders the fixed message
"failed to join voice channel: establishing connection failed", in which the
wrapped display text does not occur. -/
theorem display_driver_cex :
    (JoinError.Driver ⟨"socket handshake exploded"⟩).display =
      "failed to join voice channel: establishing connection failed" ∧
    occurs (ConnectionError.display ⟨"socket handshake exploded"⟩).toList
      ((JoinError.Driver ⟨"socket handshake exploded"⟩).display).toList
      = false := by
  exact ⟨rfl, by decide⟩

/-- Claim C4 amended: the backend wrapper cases (`Serenity`,
`TwilightShard`, `TwilightCluster`) delegate their message rendering to the
wrapped value, whose display text appears after the uniform opening text;
the `Driver` case instead renders the fixed message
"establishing connection failed" regardless of the wrapped connection
error. -/
theorem display_delegation (c : ConnectionError) (s : TrySendError)
    (sh : CommandError) (cl : ClusterCommandError) :
    (JoinError.Serenity s).display =
      "failed to join voice channel: " ++ s.display ∧
    (JoinError.TwilightShard sh).display =
      "failed to join voice channel: " ++ sh.display ∧
    (JoinError.TwilightCluster cl).display =
      "failed to join voice channel: " ++ cl.display ∧
    (JoinError.Driver c).display =
      "failed to join voice channel: establishing connection failed" :=
  ⟨rfl, rfl, rfl, rfl⟩

/-- Claim C5: each protocol-level case (`Dropped`, `NoSender`, `NoCall`,
`TimedOut`, `IllegalGuild`, `IllegalChannel`) has no causal source. -/
theorem protocol_cases_no_source :
    JoinError.Dropped.source = none ∧
    JoinError.NoSender.source = none ∧
    JoinError.NoCall.source = none ∧
    JoinError.TimedOut.source = none ∧
    JoinError.IllegalGuild.source = none ∧
    JoinError.IllegalChannel.source = none :=
  ⟨rfl, rfl, rfl, rfl, rfl, rfl⟩

/-- Claim C6: each source error type maps under its conversion to exactly
one `JoinError` case with the original value moved in unmodified; backend
send errors never map to `Driver` and the driver error never maps to a
backend case. -/
theorem conversion_unambiguous :
    (∀ e : ConnectionError,
      JoinError.fromConnectionError e = JoinError.Driver e) ∧
    (∀ e : TrySendError,
      JoinError.fromTrySendError e = JoinError.Serenity e) ∧
    (∀ e : CommandError,
      JoinError.fromCommandError e = JoinError.TwilightShard e) ∧
    (∀ e : ClusterCommandError,
      JoinError.fromClusterCommandError e = JoinError.TwilightCluster e) ∧
    (∀ (e : TrySendError) (c : ConnectionError),
      JoinError.fromTrySendError e ≠ JoinError.Driver c) ∧
    (∀ (e : CommandError) (c : ConnectionError),
      JoinError.fromCommandError e ≠ JoinError.Driver c) ∧
    (∀ (e : ClusterCommandError) (c : ConnectionError),
      JoinError.fromClusterCommandError e ≠ JoinError.Driver c) ∧
    (∀ (e : ConnectionError) (s : TrySendError),
      JoinError.fromConnectionError e ≠ JoinError.Serenity s) := by
  refine ⟨fun _ => rfl, fun _ => rfl, fun _ => rfl, fun _ => rfl,
    ?_, ?_, ?_, ?_⟩ <;> intro a b <;>
    simp [JoinError.fromTrySendError, JoinError.fromCommandError,
      JoinError.fromClusterCommandError, JoinError.fromConnectionError]

/-- Claim C7: the display rendering of every `JoinError` value begins with
the uniform text "failed to join voice channel: " followed by the
case-specific message, for all cases including the backend and driver
wrappers. -/
theorem display_uniform_start (e : JoinError) :
    ∃ rest : String, e.display = "failed to join voice channel: " ++ rest := by
  cases e <;> exact ⟨_, rfl⟩

/-- Claim C8 counterexample: for the join request with guild 0 and channel 0
the operation fails with `IllegalGuild`, so the claim clause that every join
request with a zero channel identifier fails with `IllegalChannel` is false
at this input. -/
theorem zero_ids_cex :
    (joinVoiceChannel 0 0 (fun _ _ => none)).result =
      some JoinError.IllegalGuild ∧
    (joinVoiceChannel 0 0 (fun _ _ => none)).result ≠
      some JoinError.IllegalChannel := by
  exact ⟨rfl, by decide⟩

/-- Claim C8 amended: every join or leave request with a zero guild
identifier fails with `IllegalGuild`, and every join request with a zero
channel identifier and a nonzero guild identifier fails with
`IllegalChannel`; in each case the failure is produced by input validation
and the transport is never invoked. -/
theorem zero_id_validation (g c : Nat)
    (t2 : Nat → Nat → Option JoinError) (t1 : Nat → Option JoinError) :
    (g = 0 →
      joinVoiceChannel g c t2 = ⟨some JoinError.IllegalGuild, false⟩ ∧
      leaveVoiceChannel g t1 = ⟨some JoinError.IllegalGuild, false⟩) ∧
    (g ≠ 0 → c = 0 →
      joinVoiceChannel g c t2 = ⟨some JoinError.IllegalChannel, false⟩) := by
  constructor
  · intro hg
    subst hg
    exact ⟨rfl, rfl⟩
  · intro hg hc
    subst hc
    simp [joinVoiceChannel, hg]

/-- Witness for the amended claim C8 at guild 0 channel 5 and at guild 5
channel 0, with a transport that would report success if invoked. -/
theorem zero_id_validation_witness :
    joinVoiceChannel 0 5 (fun _ _ => none) =
      ⟨some JoinError.IllegalGuild, false⟩ ∧
    leaveVoiceChannel 0 (fun _ => none) =
      ⟨some JoinError.IllegalGuild, false⟩ ∧
    joinVoiceChannel 5 0 (fun _ _ => none) =
      ⟨some JoinError.IllegalChannel, false⟩ :=
  ⟨((zero_id_validation 0 5 (fun _ _ => none) (fun _ => none)).1 rfl).1,
   ((zero_id_validation 0 5 (fun _ _ => none) (fun _ => none)).1 rfl).2,
   (zero_id_validation 5 0 (fun _ _ => none) (fun _ => none)).2
     (by decide) rfl⟩

/-- Claim C9: the error-classification operations are deterministic
functions of the error value alone: on equal `JoinError` values,
`should_leave_server`, `should_reconnect_driver`, the display rendering and
the causal-source accessor produce identical results; as total functions of
the embedding they perform no effects and leave the value unchanged. -/
theorem classification_deterministic (e1 e2 : JoinError) (h : e1 = e2) :
    e1.should_leave_server = e2.should_leave_server ∧
    e1.should_reconnect_driver = e2.should_reconnect_driver ∧
    e1.display = e2.display ∧
    e1.source = e2.source := by
  subst h
  exact ⟨rfl, rfl, rfl, rfl⟩

/-- Witness for claim C9 at the `TimedOut` value. -/
theorem classification_deterministic_witness :
    JoinError.TimedOut.should_leave_server =
      JoinError.TimedOut.should_leave_server ∧
    JoinError.TimedOut.should_reconnect_driver =
      JoinError.TimedOut.should_reconnect_driver ∧
    JoinError.TimedOut.display = JoinError.TimedOut.display ∧
    JoinError.TimedOut.source = JoinError.TimedOut.source :=
  classification_deterministic JoinError.TimedOut JoinError.TimedOut rfl

/-- Claim C10: `should_leave_server` and `should_reconnect_driver` are never
both true on the same `JoinError` value, so the advised recovery action is
always unambiguous. -/
theorem recovery_predicates_exclusive (e : JoinError) :
    (e.should_leave_server && e.should_reconnect_driver) = false := by
  cases e <;> rfl
